import Mathlib

/-!
Hero interactions controller (`assets/js/hero-interactions.js`)

A shallow embedding of the `HeroInteractions` object and of the part of the
browser it talks to, followed by theorems about it.

Modelling conventions.

* **Numbers.** A JavaScript number is a `JSNum`: not-a-number, an exact rational,
  or one of the two infinities.  Exact rational arithmetic stands for IEEE-754
  double arithmetic: rounding and overflow are not modelled, and the two zeros
  are not told apart (a zero divisor counts as `+0`; `-0` prints as `0` in a
  template literal anyway).
* **Strings read from the page** (attribute values) are lists of UTF-16 code
  units, `JSString`.
* **Strings built by template literals** are kept as the list of their pieces,
  `JSText`: the literal chunks and the interpolated numbers, in order.  The
  decimal printing of a number is not modelled.
* **The page.** The document structure is fixed: the script never adds or
  removes an element one of its selectors matches.  The elements matched by the
  different selectors are different elements and every orbit item has its own
  icon, so each kind of element has its own store.  `Page` records what the
  document queries return; the controller holds references into the stores.
* **Exceptions.** An operation that can raise returns an `Outcome`: the world
  as it is when the operation ends and the error that propagated, if any.
-/

namespace HeroInteractions

/-! ## JavaScript numbers -/

/-- A JavaScript number: `NaN`, a finite value, `+Infinity` or `-Infinity`. -/
inductive JSNum where
  | nan
  | fin (q : ℚ)
  | posInf
  | negInf
  deriving DecidableEq

namespace JSNum

/-- An infinity of the given sign (`true`: positive). -/
def inf (positive : Bool) : JSNum := if positive then posInf else negInf

/-- Unary minus. -/
def neg : JSNum → JSNum
  | nan => nan
  | fin q => fin (-q)
  | posInf => negInf
  | negInf => posInf

/-- An infinity of sign `positive` times the finite value `q`. -/
def infTimes (positive : Bool) (q : ℚ) : JSNum :=
  if q = 0 then nan else inf (positive == decide (0 < q))

/-- The product `a * b`. -/
def mul : JSNum → JSNum → JSNum
  | nan, _ => nan
  | _, nan => nan
  | fin a, fin b => fin (a * b)
  | fin a, posInf => infTimes true a
  | fin a, negInf => infTimes false a
  | posInf, fin b => infTimes true b
  | negInf, fin b => infTimes false b
  | posInf, posInf => posInf
  | posInf, negInf => negInf
  | negInf, posInf => negInf
  | negInf, negInf => posInf

/-- The difference `a - b`. -/
def sub : JSNum → JSNum → JSNum
  | nan, _ => nan
  | _, nan => nan
  | fin a, fin b => fin (a - b)
  | fin _, posInf => negInf
  | fin _, negInf => posInf
  | posInf, fin _ => posInf
  | negInf, fin _ => negInf
  | posInf, posInf => nan
  | posInf, negInf => posInf
  | negInf, posInf => negInf
  | negInf, negInf => nan

/-- The quotient `a / b`. -/
def div : JSNum → JSNum → JSNum
  | nan, _ => nan
  | _, nan => nan
  | fin a, fin b =>
    if b = 0 then (if a = 0 then nan else inf (decide (0 < a))) else fin (a / b)
  | fin _, posInf => fin 0
  | fin _, negInf => fin 0
  | posInf, fin b => inf (decide (0 ≤ b))
  | negInf, fin b => inf (decide (b < 0))
  | posInf, posInf => nan
  | posInf, negInf => nan
  | negInf, posInf => nan
  | negInf, negInf => nan

/-- The value of `Math.min(a, b)`. -/
def min : JSNum → JSNum → JSNum
  | nan, _ => nan
  | _, nan => nan
  | negInf, _ => negInf
  | _, negInf => negInf
  | posInf, b => b
  | a, posInf => a
  | fin a, fin b => fin (if a ≤ b then a else b)

/-- The value of `Math.max(a, b)`. -/
def max : JSNum → JSNum → JSNum
  | nan, _ => nan
  | _, nan => nan
  | posInf, _ => posInf
  | _, posInf => posInf
  | negInf, b => b
  | a, negInf => a
  | fin a, fin b => fin (if a ≤ b then b else a)

instance : Mul JSNum := ⟨mul⟩
instance : Sub JSNum := ⟨sub⟩
instance : Div JSNum := ⟨div⟩
instance : Neg JSNum := ⟨neg⟩
instance (n : Nat) : OfNat JSNum n := ⟨fin n⟩

end JSNum

/-! ## Strings -/

/-- A page string: its UTF-16 code units. -/
abbrev JSString := List Nat

/-- The code units of a string constant. -/
def codeUnits (s : String) : JSString :=
  s.toList.flatMap fun c =>
    if c.toNat < 0x10000 then [c.toNat]
    else [0xD800 + (c.toNat - 0x10000) / 0x400, 0xDC00 + (c.toNat - 0x10000) % 0x400]

/-- One piece of a template literal: a literal chunk or an interpolated number. -/
inductive Piece where
  | lit (s : String)
  | num (n : JSNum)
  deriving DecidableEq

/-- A string built by the script, as the list of its pieces. -/
abbrev JSText := List Piece

/-- The errors the script can raise: dereferencing `null` is a `TypeError`. -/
inductive JSError where
  | typeError
  deriving DecidableEq

deriving instance DecidableEq for Except

/-- The substring `s.slice(a, b)` for indices `0 ≤ a ≤ b`: the code units at the
positions from `a` up to, not including, `b`, as far as the string reaches. -/
def slice (s : JSString) (a b : Nat) : JSString :=
  (s.drop a).take (b - a)

/-- The white space and line terminators `parseInt` skips at the start. -/
def isWhiteSpace (c : Nat) : Bool :=
  c = 0x09 || c = 0x0A || c = 0x0B || c = 0x0C || c = 0x0D || c = 0x20 || c = 0xA0 ||
  c = 0x1680 || (0x2000 ≤ c && c ≤ 0x200A) || c = 0x2028 || c = 0x2029 || c = 0x202F ||
  c = 0x205F || c = 0x3000 || c = 0xFEFF

/-- The value of a code unit as a digit: `0`-`9`, then letters of either case
from ten upwards. -/
def digitValue (c : Nat) : Option Nat :=
  if 48 ≤ c ∧ c ≤ 57 then some (c - 48)
  else if 97 ≤ c ∧ c ≤ 122 then some (c - 87)
  else if 65 ≤ c ∧ c ≤ 90 then some (c - 55)
  else none

/-- The digit values of the longest run of radix-`R` digits a string starts with. -/
def radixDigits (R : Nat) : JSString → List Nat
  | [] => []
  | c :: cs =>
    match digitValue c with
    | some d => if d < R then d :: radixDigits R cs else []
    | none => []

/-- The integer a list of digit values denotes in radix `R`. -/
def mathInt (R : Nat) (ds : List Nat) : Nat :=
  ds.foldl (fun acc d => acc * R + d) 0

/-- Whether a string starts with the hexadecimal mark `0x` or `0X`. -/
def hasHexMark : JSString → Bool
  | 48 :: x :: _ => x = 120 || x = 88
  | _ => false

/-- The global `parseInt(input, radix)` on a string; radix `0` stands for an
omitted radix. -/
def parseInt (input : JSString) (radix : Nat) : JSNum :=
  let s := input.dropWhile isWhiteSpace
  let negative := s.head? = some 45
  let s := match s with
    | c :: cs => if c = 43 ∨ c = 45 then cs else s
    | [] => []
  if radix ≠ 0 ∧ (radix < 2 ∨ 36 < radix) then JSNum.nan
  else
    let R := if radix = 0 then 10 else radix
    let hexMark : Bool := (radix = 0 ∨ radix = 16) && hasHexMark s
    let s := if hexMark then s.drop 2 else s
    let R := if hexMark then 16 else R
    let ds := radixDigits R s
    if ds = [] then JSNum.nan
    else
      let n : ℚ := (mathInt R ds : ℕ)
      JSNum.fin (if negative then -n else n)

/-- The string an attribute read converts to: `getAttribute` gives `null` for a
missing attribute, which reads as the text `null`. -/
def attrString : Option JSString → JSString
  | none => codeUnits "null"
  | some s => s

/-- The method `hexToRgba(hex, alpha)`. -/
def hexToRgba (hex : Option JSString) (alpha : JSNum) : Except JSError JSText :=
  match hex with
  | none => .error .typeError
  | some h =>
    let r := parseInt (slice h 1 3) 16
    let g := parseInt (slice h 3 5) 16
    let b := parseInt (slice h 5 7) 16
    .ok [.lit "rgba(", .num r, .lit ", ", .num g, .lit ", ", .num b, .lit ", ", .num alpha,
      .lit ")"]

/-! ## The page -/

/-- The rectangle `getBoundingClientRect()` returns. -/
structure Rect where
  left : ℚ
  top : ℚ
  width : ℚ
  height : ℚ
  deriving DecidableEq

/-- The part of a mouse event the script reads. -/
structure MouseEvent where
  clientX : ℚ
  clientY : ℚ
  deriving DecidableEq

/-- An `.orbit-icon` element: the inline style properties the script writes and
the ripple children it appends (each by its `cssText`). -/
structure Icon where
  transform : JSText
  boxShadow : JSText
  background : JSText
  position : JSText
  overflow : JSText
  ripples : List JSText
  deriving DecidableEq

/-- An `.orbit-item` element: its two attributes as `getAttribute` returns them,
what `querySelector('.orbit-icon')` finds in it, and its inline custom property
`--counter-rotation`. -/
structure OrbitItem where
  dataOrbit : Option JSString
  dataColor : Option JSString
  icon : Option Icon
  counterRotation : JSText
  deriving DecidableEq

/-- What the document queries return: whether `getElementById('heroVisual')`,
`querySelector('.orbit-container')` and `querySelector('.center-circle')` find
an element, and which elements `querySelectorAll('.orbit-item')` and
`querySelectorAll('.floating-card')` list, in document order. -/
structure Page where
  heroVisual : Bool
  orbitItems : List Nat
  orbitContainer : Bool
  centerCircle : Bool
  floatingCards : List Nat
  deriving DecidableEq

/-- The pointer state `mouse`. -/
structure Mouse where
  x : JSNum
  y : JSNum
  deriving DecidableEq

/-- The fields of the `HeroInteractions` object.  A reference to a single element
is `true` when it is set and `false` when it is `null`; `orbitItems` lists the
orbit items the array refers to. -/
structure Controller where
  heroVisual : Bool
  orbitItems : List Nat
  orbitContainer : Bool
  centerCircle : Bool
  mouse : Mouse
  isHovering : Bool
  deriving DecidableEq

/-- The constant field `maxDistance`. -/
def maxDistance : JSNum := 40

/-- The element a listener is registered on. -/
inductive Target where
  | heroVisual
  | orbitItem (item : Nat)
  | floatingCard (card : Nat)
  deriving DecidableEq

/-- The listener functions the script registers.  A listener of an orbit item
carries the item and the `color` its closure captured; the `icon` the closure
captured is what `querySelector('.orbit-icon')` found in that item, which the fixed
document structure makes the item's icon at every later time. -/
inductive Handler where
  | visualMouseMove
  | visualMouseLeave
  | itemMouseEnter (item : Nat) (color : Option JSString)
  | itemMouseLeave (item : Nat)
  | itemClick (item : Nat) (color : Option JSString)
  | cardMouseEnter (card : Nat)
  | cardMouseLeave (card : Nat)
  deriving DecidableEq

/-- One `addEventListener` registration. -/
structure Listener where
  target : Target
  event : String
  handler : Handler
  deriving DecidableEq

/-- The state of the page and of the controller. -/
structure World where
  /-- what the document queries return -/
  page : Page
  /-- the bounding rectangle of `#heroVisual` -/
  heroRect : Rect
  /-- the orbit item elements -/
  items : Nat → OrbitItem
  /-- `style.animationPlayState` of the orbit container -/
  containerPlayState : JSText
  /-- `style.transform` of the centre circle -/
  circleTransform : JSText
  /-- `style.animationPlayState` of the floating cards -/
  cardPlayState : Nat → JSText
  /-- the controller object -/
  ctl : Controller
  /-- the registered listeners, in registration order -/
  listeners : List Listener
  /-- the number of `requestAnimationFrame(updateRotation)` callbacks waiting -/
  frameRequests : Nat
  /-- the pending ripple removals (`setTimeout`), by orbit item -/
  timeouts : List Nat
  /-- the lines written by `console.log` -/
  console : List String

/-- The result of running an operation: the world it leaves and the error that
propagated out of it, if any. -/
structure Outcome where
  world : World
  thrown : Option JSError

/-- Sequencing: the next statement runs only if nothing was thrown. -/
def Outcome.andThen (o : Outcome) (f : World → Outcome) : Outcome :=
  match o.thrown with
  | some _ => o
  | none => f o.world

/-- The loop `this.orbitItems.forEach(callback)` for a callback that only writes to
its own item. -/
def forEachItem (ids : List Nat) (callback : OrbitItem → OrbitItem)
    (items : Nat → OrbitItem) : Nat → OrbitItem :=
  ids.foldl (fun st i => Function.update st i (callback (st i))) items

/-- A write to a property of the icon of orbit item `i`. -/
def writeIcon (w : World) (i : Nat) (icon : Icon) : World :=
  { w with items := Function.update w.items i { w.items i with icon := some icon } }

/-! ## The controller's methods -/

/-- The method `updateMousePosition(e)`. -/
def updateMousePosition (w : World) (e : MouseEvent) : Outcome :=
  if w.ctl.heroVisual then
    let rect := w.heroRect
    let centerX : JSNum := JSNum.fin rect.width / 2
    let centerY : JSNum := JSNum.fin rect.height / 2
    let x := (JSNum.fin e.clientX - JSNum.fin rect.left - centerX) / centerX
    let y := (JSNum.fin e.clientY - JSNum.fin rect.top - centerY) / centerY
    ⟨{ w with ctl := { w.ctl with mouse := ⟨x, y⟩ } }, none⟩
  else ⟨w, some .typeError⟩

/-- The callback of the loop in `applySmartParallax`. -/
def parallaxItem (mouse : Mouse) (item : OrbitItem) : OrbitItem :=
  match item.icon with
  | none => item
  | some icon =>
    let orbitIndex := parseInt (attrString item.dataOrbit) 0
    let baseAngle := (orbitIndex - 1) * 60
    let attractX := mouse.x * maxDistance
    let attractY := mouse.y * maxDistance
    let constrainedX :=
      JSNum.max (-maxDistance) (JSNum.min maxDistance (attractX * JSNum.fin (1 / 2)))
    let constrainedY :=
      JSNum.max (-maxDistance) (JSNum.min maxDistance (attractY * JSNum.fin (1 / 2)))
    let counterAngle := -baseAngle
    { item with icon := some { icon with transform :=
        [.lit "rotate(", .num counterAngle, .lit "deg) translate(", .num constrainedX,
          .lit "px, ", .num constrainedY, .lit "px)"] } }

/-- The method `applySmartParallax()`. -/
def applySmartParallax (w : World) : World :=
  let w :=
    if w.ctl.centerCircle then
      let moveX := w.ctl.mouse.x * 15
      let moveY := w.ctl.mouse.y * 15
      { w with circleTransform :=
          [.lit "translate(calc(-50% + ", .num moveX, .lit "px), calc(-50% + ", .num moveY,
            .lit "px))"] }
    else w
  { w with items := forEachItem w.ctl.orbitItems (parallaxItem w.ctl.mouse) w.items }

/-- The callback of the loop in `resetParallax`. -/
def resetItem (item : OrbitItem) : OrbitItem :=
  match item.icon with
  | none => item
  | some icon =>
    let orbitIndex := parseInt (attrString item.dataOrbit) 0
    let baseAngle := (orbitIndex - 1) * 60
    let counterAngle := -baseAngle
    { item with icon := some { icon with transform :=
        [.lit "rotate(", .num counterAngle, .lit "deg)"] } }

/-- The method `resetParallax()`. -/
def resetParallax (w : World) : World :=
  let w :=
    if w.ctl.centerCircle then
      { w with circleTransform := [.lit "translate(-50%, -50%)"] }
    else w
  { w with items := forEachItem w.ctl.orbitItems resetItem w.items }

/-- The callback of the loop in `updateRotation`. -/
def rotationItem (item : OrbitItem) : OrbitItem :=
  let orbitIndex := parseInt (attrString item.dataOrbit) 0
  let baseAngle := (orbitIndex - 1) * 60
  { item with counterRotation := [.num (-baseAngle), .lit "deg"] }

/-- The per-frame function `updateRotation` of `setupCounterRotation`; the computed
style it reads is not used. -/
def updateRotation (w : World) : World :=
  if w.ctl.orbitContainer then
    let w := { w with items := forEachItem w.ctl.orbitItems rotationItem w.items }
    { w with frameRequests := w.frameRequests + 1 }
  else w

/-- The method `setupCounterRotation()`: the first call of `updateRotation`. -/
def setupCounterRotation (w : World) : World :=
  updateRotation w

/-- An animation frame: the browser takes the waiting callbacks and calls each. -/
def animationFrame (w : World) : World :=
  Nat.iterate updateRotation w.frameRequests { w with frameRequests := 0 }

/-- The method `createRipple(element, color)`, for `element` the icon of orbit
item `i`. -/
def createRipple (w : World) (i : Nat) (color : Option JSString) : Outcome :=
  match hexToRgba color (JSNum.fin (1 / 2)) with
  | .error err => ⟨w, some err⟩
  | .ok background =>
    let cssText : JSText :=
      [.lit ("\n            position: absolute;\n            top: 50%;\n            left: 50%;" ++
        "\n            width: 0;\n            height: 0;\n            border-radius: 50%;" ++
        "\n            background: ")] ++ background ++
      [.lit (";\n            transform: translate(-50%, -50%);" ++
        "\n            animation: rippleEffect 0.8s ease-out;" ++
        "\n            pointer-events: none;\n            z-index: 10;\n        ")]
    match (w.items i).icon with
    | none => ⟨w, some .typeError⟩
    | some icon =>
      let icon := { icon with position := [.lit "relative"] }
      let icon := { icon with overflow := [.lit "hidden"] }
      let icon := { icon with ripples := icon.ripples ++ [cssText] }
      let w := writeIcon w i icon
      ⟨{ w with timeouts := w.timeouts ++ [i] }, none⟩

/-- The deferred callback `() => ripple.remove()` for the oldest ripple waiting on
orbit item `i`. -/
def rippleTimeout (w : World) (i : Nat) : World :=
  let w := { w with timeouts := w.timeouts.erase i }
  match (w.items i).icon with
  | none => w
  | some icon => writeIcon w i { icon with ripples := icon.ripples.drop 1 }

/-- The `mouseenter` listener of orbit item `i`, whose closure holds `color` and the
item's icon, `null` when the item has none. -/
def itemMouseEnter (i : Nat) (color : Option JSString) (w : World) : Outcome :=
  let w := { w with ctl := { w.ctl with isHovering := true } }
  match (w.items i).icon with
  | none => ⟨w, some .typeError⟩
  | some icon =>
    match hexToRgba color (JSNum.fin (3 / 5)) with
    | .error err => ⟨w, some err⟩
    | .ok glow =>
      match hexToRgba color (JSNum.fin (1 / 5)) with
      | .error err => ⟨w, some err⟩
      | .ok ring =>
        let icon := { icon with boxShadow :=
          [.lit "0 12px 40px "] ++ glow ++ [.lit ", 0 0 0 4px "] ++ ring }
        let w := writeIcon w i icon
        match hexToRgba color (JSNum.fin (1 / 10)) with
        | .error err => ⟨w, some err⟩
        | .ok tint =>
          let w := writeIcon w i { icon with background := tint }
          if w.ctl.orbitContainer then
            ⟨{ w with containerPlayState := [.lit "paused"] }, none⟩
          else ⟨w, none⟩

/-- The `mouseleave` listener of orbit item `i`. -/
def itemMouseLeave (i : Nat) (w : World) : Outcome :=
  let w := { w with ctl := { w.ctl with isHovering := false } }
  match (w.items i).icon with
  | none => ⟨w, some .typeError⟩
  | some icon =>
    let icon := { icon with boxShadow := [.lit "0 8px 24px rgba(0, 0, 0, 0.12)"] }
    let icon := { icon with background := [.lit "white"] }
    let w := writeIcon w i icon
    if w.ctl.orbitContainer then
      ⟨{ w with containerPlayState := [.lit "running"] }, none⟩
    else ⟨w, none⟩

/-- The `click` listener of orbit item `i`. -/
def itemClick (i : Nat) (color : Option JSString) (w : World) : Outcome :=
  createRipple w i color

/-- The `mouseenter` listener of floating card `c`. -/
def cardMouseEnter (c : Nat) (w : World) : World :=
  { w with cardPlayState := Function.update w.cardPlayState c [.lit "paused"] }

/-- The `mouseleave` listener of floating card `c`. -/
def cardMouseLeave (c : Nat) (w : World) : World :=
  { w with cardPlayState := Function.update w.cardPlayState c [.lit "running"] }

/-- The `mousemove` listener of the visual region. -/
def visualMouseMove (e : MouseEvent) (w : World) : Outcome :=
  (updateMousePosition w e).andThen fun w => ⟨applySmartParallax w, none⟩

/-- The `mouseleave` listener of the visual region. -/
def visualMouseLeave (w : World) : World :=
  resetParallax w

/-- Running a registered listener on an event. -/
def runHandler (h : Handler) (e : MouseEvent) (w : World) : Outcome :=
  match h with
  | .visualMouseMove => visualMouseMove e w
  | .visualMouseLeave => ⟨visualMouseLeave w, none⟩
  | .itemMouseEnter i color => itemMouseEnter i color w
  | .itemMouseLeave i => itemMouseLeave i w
  | .itemClick i color => itemClick i color w
  | .cardMouseEnter c => ⟨cardMouseEnter c w, none⟩
  | .cardMouseLeave c => ⟨cardMouseLeave c w, none⟩

/-- The method `setupMouseTracking()`. -/
def setupMouseTracking (w : World) : Outcome :=
  if w.ctl.heroVisual then
    let w := { w with listeners :=
      w.listeners ++ [Listener.mk .heroVisual "mousemove" .visualMouseMove] }
    ⟨{ w with listeners :=
      w.listeners ++ [Listener.mk .heroVisual "mouseleave" .visualMouseLeave] }, none⟩
  else ⟨w, some .typeError⟩

/-- The method `setupOrbitHoverEffects()`. -/
def setupOrbitHoverEffects (w : World) : World :=
  w.ctl.orbitItems.foldl (fun w i =>
    let color := (w.items i).dataColor
    { w with listeners := w.listeners ++
      [Listener.mk (.orbitItem i) "mouseenter" (.itemMouseEnter i color),
       Listener.mk (.orbitItem i) "mouseleave" (.itemMouseLeave i),
       Listener.mk (.orbitItem i) "click" (.itemClick i color)] }) w

/-- The method `setupFloatingCards()`. -/
def setupFloatingCards (w : World) : World :=
  w.page.floatingCards.foldl (fun w c =>
    { w with listeners := w.listeners ++
      [Listener.mk (.floatingCard c) "mouseenter" (.cardMouseEnter c),
       Listener.mk (.floatingCard c) "mouseleave" (.cardMouseLeave c)] }) w

/-- The method `init()`. -/
def init (w : World) : Outcome :=
  let w := { w with console := w.console ++ ["🎨 Hero Interactions - Initializing..."] }
  let w := { w with ctl := { w.ctl with heroVisual := w.page.heroVisual } }
  if !w.ctl.heroVisual then ⟨w, none⟩
  else
    let w := { w with ctl := { w.ctl with orbitItems := w.page.orbitItems } }
    let w := { w with ctl := { w.ctl with orbitContainer := w.page.orbitContainer } }
    let w := { w with ctl := { w.ctl with centerCircle := w.page.centerCircle } }
    (setupMouseTracking w).andThen fun w =>
      let w := setupOrbitHoverEffects w
      let w := setupFloatingCards w
      let w := setupCounterRotation w
      ⟨{ w with console := w.console ++ ["✅ Hero Interactions initialized"] }, none⟩

/-- The method `destroy()`. -/
def destroy (w : World) : World :=
  { w with ctl := { w.ctl with
      heroVisual := false, orbitItems := [], orbitContainer := false, centerCircle := false } }

/-! ## Notions used in the statements -/

/-- The slot index of an orbit item: the number its `data-orbit` attribute reads
as, which every method obtains with `parseInt(item.getAttribute('data-orbit'))`. -/
def slotIndex (item : OrbitItem) : JSNum :=
  parseInt (attrString item.dataOrbit) 0

/-- The normalised offset of a pointer coordinate `c` along a side of the visual
region that starts at `lo` and has length `size`: the distance of `c` from the
centre of the side, `lo + size / 2`, measured in half sides. -/
def normalisedOffset (c lo size : ℚ) : ℚ :=
  (c - (lo + size / 2)) / (size / 2)

/-- A hexadecimal digit: `0`-`9`, `A`-`F` or `a`-`f`. -/
def isHexDigit (c : Nat) : Bool :=
  (48 ≤ c && c ≤ 57) || (65 ≤ c && c ≤ 70) || (97 ≤ c && c ≤ 102)

/-- The value of a hexadecimal digit. -/
def hexValue (c : Nat) : Nat :=
  if c ≤ 57 then c - 48 else if c ≤ 70 then c - 55 else c - 87

/-- The integer the pair of hexadecimal digits at positions `k` and `k + 1` of a
string denotes. -/
def byteAt (s : JSString) (k : Nat) : Nat :=
  16 * hexValue (s.getD k 0) + hexValue (s.getD (k + 1) 0)

/-- A well-formed colour string: a hash followed by exactly six hexadecimal
digits. -/
def wellFormedHex (s : JSString) : Bool :=
  s.length = 7 && s.head? = some 35 && (s.drop 1).all isHexDigit

/-- A position of a string at which no hexadecimal number can start: it is past
the end, or holds a code unit that is not a hexadecimal digit, white space, `+`
or `-`. -/
def noNumberAt (s : JSString) (k : Nat) : Bool :=
  match s.drop k with
  | [] => true
  | c :: _ => !isHexDigit c && !isWhiteSpace c && c != 43 && c != 45

/-! ## A sample page -/

/-- An icon nothing has been written to. -/
def blankIcon : Icon := ⟨[], [], [], [], [], []⟩

/-- The orbit items of the sample page: item `0` in slot 1 and item `1` in slot 3
have an icon; every other item, item `2` among them, is in slot 2 and has none. -/
def sampleItems (i : Nat) : OrbitItem :=
  if i = 0 then ⟨some (codeUnits "1"), some (codeUnits "#FF0000"), some blankIcon, []⟩
  else if i = 1 then ⟨some (codeUnits "3"), some (codeUnits "#00FF00"), some blankIcon, []⟩
  else ⟨some (codeUnits "2"), some (codeUnits "#0000FF"), none, []⟩

/-- The sample page before the script runs: a visual region of 400 by 300 at
(100, 50), three orbit items, an orbit container whose animation runs, a centre
circle and two floating cards; the controller fields have their initial values. -/
def samplePage : World :=
  { page := ⟨true, [0, 1, 2], true, true, [0, 1]⟩
    heroRect := ⟨100, 50, 400, 300⟩
    items := sampleItems
    containerPlayState := [.lit "running"]
    circleTransform := []
    cardPlayState := fun _ => [.lit "running"]
    ctl := ⟨false, [], false, false, ⟨0, 0⟩, false⟩
    listeners := []
    frameRequests := 0
    timeouts := []
    console := [] }

/-- The sample page without the element `#heroVisual`. -/
def samplePageNoVisual : World :=
  { samplePage with page := { samplePage.page with heroVisual := false } }

/-- The sample page once `init` has run. -/
def sampleWorld : World :=
  (init samplePage).world

/-- The initialised sample page with the pointer at offset `(1/2, -1)`. -/
def sampleWorldPointer : World :=
  { sampleWorld with ctl := { sampleWorld.ctl with mouse := ⟨JSNum.fin (1 / 2), JSNum.fin (-1)⟩ } }

/-! ## Auxiliary facts -/

namespace JSNum

@[simp] theorem fin_mul_fin (a b : ℚ) : fin a * fin b = fin (a * b) := rfl

@[simp] theorem fin_sub_fin (a b : ℚ) : fin a - fin b = fin (a - b) := rfl

@[simp] theorem neg_fin (a : ℚ) : -fin a = fin (-a) := rfl

@[simp] theorem ofNat_eq_fin (n : Nat) : (OfNat.ofNat n : JSNum) = fin (n : ℚ) := rfl

@[simp] theorem min_fin_fin (a b : ℚ) : JSNum.min (fin a) (fin b) = fin (Min.min a b) := by
  simp only [JSNum.min, min_def]

@[simp] theorem max_fin_fin (a b : ℚ) : JSNum.max (fin a) (fin b) = fin (Max.max a b) := by
  simp only [JSNum.max, max_def]

theorem fin_div_fin (a b : ℚ) (hb : b ≠ 0) : fin a / fin b = fin (a / b) := by
  show JSNum.div (fin a) (fin b) = fin (a / b)
  simp only [JSNum.div, hb, if_false]

end JSNum

/-- A loop whose callback settles an item in one pass leaves every listed item
settled and every other item as it was. -/
theorem forEachItem_apply (f : OrbitItem → OrbitItem) (hf : ∀ a, f (f a) = f a)
    (ids : List Nat) (items : Nat → OrbitItem) (j : Nat) :
    forEachItem ids f items j = if j ∈ ids then f (items j) else items j := by
  unfold forEachItem
  induction ids generalizing items with
  | nil => simp
  | cons i rest ih =>
    rw [List.foldl_cons, ih]
    by_cases hji : j = i
    · subst hji
      simp [hf]
    · by_cases hj : j ∈ rest
      · simp [hj, hji, Function.update_noteq hji]
      · simp [hj, hji, Function.update_noteq hji]

theorem parallaxItem_idem (mouse : Mouse) (a : OrbitItem) :
    parallaxItem mouse (parallaxItem mouse a) = parallaxItem mouse a := by
  unfold parallaxItem
  cases h : a.icon <;> simp [h]

theorem resetItem_idem (a : OrbitItem) : resetItem (resetItem a) = resetItem a := by
  unfold resetItem
  cases h : a.icon <;> simp [h]

theorem rotationItem_idem (a : OrbitItem) : rotationItem (rotationItem a) = rotationItem a := by
  simp [rotationItem]

theorem applySmartParallax_items (w : World) :
    (applySmartParallax w).items =
      forEachItem w.ctl.orbitItems (parallaxItem w.ctl.mouse) w.items := by
  unfold applySmartParallax
  by_cases h : w.ctl.centerCircle <;> simp [h]

theorem resetParallax_items (w : World) :
    (resetParallax w).items = forEachItem w.ctl.orbitItems resetItem w.items := by
  unfold resetParallax
  by_cases h : w.ctl.centerCircle <;> simp [h]

/-- What `applySmartParallax` leaves in a listed orbit item. -/
theorem applySmartParallax_item (w : World) (i : Nat) (hi : i ∈ w.ctl.orbitItems) :
    (applySmartParallax w).items i = parallaxItem w.ctl.mouse (w.items i) := by
  rw [applySmartParallax_items, forEachItem_apply _ (parallaxItem_idem _), if_pos hi]

/-- What `resetParallax` leaves in a listed orbit item. -/
theorem resetParallax_item (w : World) (i : Nat) (hi : i ∈ w.ctl.orbitItems) :
    (resetParallax w).items i = resetItem (w.items i) := by
  rw [resetParallax_items, forEachItem_apply _ resetItem_idem, if_pos hi]

/-- What `updateRotation` leaves in a listed orbit item while the controller holds
the orbit container. -/
theorem updateRotation_item (w : World) (hc : w.ctl.orbitContainer = true) (i : Nat)
    (hi : i ∈ w.ctl.orbitItems) :
    (updateRotation w).items i = rotationItem (w.items i) := by
  unfold updateRotation
  simp only [hc, if_true]
  rw [forEachItem_apply _ rotationItem_idem, if_pos hi]

/-! ## The parallax clamp -/

/-- Claim C1. For a pointer offset `(x, y)` with both coordinates in `[-1, 1]`,
`applySmartParallax` writes to the icon of every orbit item that has one a transform
`rotate(…deg) translate(tx px, ty px)` whose `tx` and `ty` are finite and lie in
`[-40, 40]`. -/
theorem applySmartParallax_translation_within_maxDistance (w : World) (x y : ℚ)
    (hmouse : w.ctl.mouse = ⟨JSNum.fin x, JSNum.fin y⟩)
    (_hx : -1 ≤ x ∧ x ≤ 1) (_hy : -1 ≤ y ∧ y ≤ 1)
    (i : Nat) (hi : i ∈ w.ctl.orbitItems) (icon : Icon) (hicon : (w.items i).icon = some icon) :
    ∃ angle tx ty,
      ((applySmartParallax w).items i).icon.map Icon.transform =
        some [.lit "rotate(", .num angle, .lit "deg) translate(", .num (JSNum.fin tx),
          .lit "px, ", .num (JSNum.fin ty), .lit "px)"] ∧
      -40 ≤ tx ∧ tx ≤ 40 ∧ -40 ≤ ty ∧ ty ≤ 40 := by
  rw [applySmartParallax_item w i hi, hmouse]
  refine ⟨-((parseInt (attrString (w.items i).dataOrbit) 0 - 1) * 60),
    Max.max (-40) (Min.min 40 (x * 40 * (1 / 2))),
    Max.max (-40) (Min.min 40 (y * 40 * (1 / 2))), ?_, ?_, ?_, ?_, ?_⟩
  · simp [parallaxItem, hicon, maxDistance]
  · exact le_max_left _ _
  · exact max_le (by norm_num) (min_le_left _ _)
  · exact le_max_left _ _
  · exact max_le (by norm_num) (min_le_left _ _)

/-- Witness for C1: on the initialised sample page with the pointer at `(1/2, -1)`
the icon of orbit item `0` gets a translation within the bound. -/
theorem applySmartParallax_translation_within_maxDistance_witness :
    ∃ angle tx ty,
      ((applySmartParallax sampleWorldPointer).items 0).icon.map Icon.transform =
        some [.lit "rotate(", .num angle, .lit "deg) translate(", .num (JSNum.fin tx),
          .lit "px, ", .num (JSNum.fin ty), .lit "px)"] ∧
      -40 ≤ tx ∧ tx ≤ 40 ∧ -40 ≤ ty ∧ ty ≤ 40 :=
  applySmartParallax_translation_within_maxDistance sampleWorldPointer (1 / 2) (-1) rfl
    (by norm_num) (by norm_num) 0 (by decide) blankIcon rfl

/-! ## Leaving the visual region -/

theorem resetParallax_circle (w : World) (hc : w.ctl.centerCircle = true) :
    (resetParallax w).circleTransform = [.lit "translate(-50%, -50%)"] := by
  simp [resetParallax, hc]

/-- The angle every method computes for an item whose slot index is the integer `n`. -/
theorem counterAngle_of_slotIndex (item : OrbitItem) (n : ℤ)
    (hn : slotIndex item = JSNum.fin n) :
    -((parseInt (attrString item.dataOrbit) 0 - 1) * 60) = JSNum.fin (-((n : ℚ) - 1) * 60) := by
  unfold slotIndex at hn
  rw [hn]
  simp only [JSNum.ofNat_eq_fin, JSNum.fin_sub_fin, JSNum.fin_mul_fin, JSNum.neg_fin,
    Nat.cast_ofNat, Nat.cast_one, JSNum.fin.injEq]
  ring

/-- Claim C2. Whatever the pointer offset and the transforms written before, after
`resetParallax` the transform of the centre circle the controller holds is exactly
`translate(-50%, -50%)`, and the transform of the icon of every orbit item is
`rotate(…deg)` alone, with no translation, the angle being `-(n - 1) * 60` for an
item whose slot index is the integer `n`. -/
theorem resetParallax_neutral (w : World) :
    (w.ctl.centerCircle = true →
      (resetParallax w).circleTransform = [.lit "translate(-50%, -50%)"]) ∧
    ∀ i ∈ w.ctl.orbitItems, ∀ icon, (w.items i).icon = some icon →
      ∃ angle,
        ((resetParallax w).items i).icon.map Icon.transform =
          some [.lit "rotate(", .num angle, .lit "deg)"] ∧
        ∀ n : ℤ, slotIndex (w.items i) = JSNum.fin n →
          angle = JSNum.fin (-((n : ℚ) - 1) * 60) := by
  refine ⟨resetParallax_circle w, ?_⟩
  intro i hi icon hicon
  refine ⟨-((parseInt (attrString (w.items i).dataOrbit) 0 - 1) * 60), ?_, ?_⟩
  · rw [resetParallax_item w i hi]
    simp [resetItem, hicon]
  · intro n hn
    exact counterAngle_of_slotIndex _ n hn

/-- Witness for C2: on the initialised sample page, with a parallax already
applied, the centre circle and the icon of orbit item `1` (slot 3) are reset. -/
theorem resetParallax_neutral_witness :
    (resetParallax (applySmartParallax sampleWorldPointer)).circleTransform =
      [.lit "translate(-50%, -50%)"] ∧
    ∃ angle,
      ((resetParallax (applySmartParallax sampleWorldPointer)).items 1).icon.map Icon.transform =
        some [.lit "rotate(", .num angle, .lit "deg)"] ∧
      ∀ n : ℤ, slotIndex ((applySmartParallax sampleWorldPointer).items 1) = JSNum.fin n →
        angle = JSNum.fin (-((n : ℚ) - 1) * 60) :=
  ⟨(resetParallax_neutral (applySmartParallax sampleWorldPointer)).1 rfl,
    (resetParallax_neutral (applySmartParallax sampleWorldPointer)).2 1 (by decide)
      { blankIcon with transform :=
          [.lit "rotate(", .num (-((3 - 1) * 60)), .lit "deg) translate(",
            .num (JSNum.max (-maxDistance)
              (JSNum.min maxDistance (JSNum.fin (1 / 2) * maxDistance * JSNum.fin (1 / 2)))),
            .lit "px, ",
            .num (JSNum.max (-maxDistance)
              (JSNum.min maxDistance (JSNum.fin (-1) * maxDistance * JSNum.fin (1 / 2)))),
            .lit "px)"] } rfl⟩

/-! ## The counter-rotation angle -/

/-- Claim C3. For an orbit item whose slot index is the integer `n`, in every state
of the controller (whatever `mouse.x`, `mouse.y` and `isHovering` are),
`applySmartParallax` and `resetParallax` put the angle `-(n - 1) * 60` in the
rotation they write to the item's icon, and `updateRotation`, when it runs its loop,
writes the same angle to the item's `--counter-rotation`. -/
theorem counterRotation_angle (w : World) (i : Nat) (hi : i ∈ w.ctl.orbitItems) (n : ℤ)
    (hn : slotIndex (w.items i) = JSNum.fin n) :
    (∀ icon, (w.items i).icon = some icon →
      ∃ tx ty, ((applySmartParallax w).items i).icon.map Icon.transform =
        some [.lit "rotate(", .num (JSNum.fin (-((n : ℚ) - 1) * 60)), .lit "deg) translate(",
          .num tx, .lit "px, ", .num ty, .lit "px)"]) ∧
    (∀ icon, (w.items i).icon = some icon →
      ((resetParallax w).items i).icon.map Icon.transform =
        some [.lit "rotate(", .num (JSNum.fin (-((n : ℚ) - 1) * 60)), .lit "deg)"]) ∧
    (w.ctl.orbitContainer = true →
      ((updateRotation w).items i).counterRotation =
        [.num (JSNum.fin (-((n : ℚ) - 1) * 60)), .lit "deg"]) := by
  have hangle := counterAngle_of_slotIndex (w.items i) n hn
  refine ⟨?_, ?_, ?_⟩
  · intro icon hicon
    rw [applySmartParallax_item w i hi]
    refine ⟨JSNum.max (-maxDistance)
        (JSNum.min maxDistance (w.ctl.mouse.x * maxDistance * JSNum.fin (1 / 2))),
      JSNum.max (-maxDistance)
        (JSNum.min maxDistance (w.ctl.mouse.y * maxDistance * JSNum.fin (1 / 2))), ?_⟩
    simp only [parallaxItem, hicon, hangle, Option.map_some']
  · intro icon hicon
    rw [resetParallax_item w i hi]
    simp only [resetItem, hicon, hangle, Option.map_some']
  · intro hc
    rw [updateRotation_item w hc i hi]
    simp only [rotationItem, hangle]

/-- Witness for C3: orbit item `1` of the sample page is in slot 3, and all three
methods give it the angle `-(3 - 1) * 60`. -/
theorem counterRotation_angle_witness :
    (∀ icon, (sampleWorldPointer.items 1).icon = some icon →
      ∃ tx ty, ((applySmartParallax sampleWorldPointer).items 1).icon.map Icon.transform =
        some [.lit "rotate(", .num (JSNum.fin (-(((3 : ℤ) : ℚ) - 1) * 60)),
          .lit "deg) translate(", .num tx, .lit "px, ", .num ty, .lit "px)"]) ∧
    (∀ icon, (sampleWorldPointer.items 1).icon = some icon →
      ((resetParallax sampleWorldPointer).items 1).icon.map Icon.transform =
        some [.lit "rotate(", .num (JSNum.fin (-(((3 : ℤ) : ℚ) - 1) * 60)), .lit "deg)"]) ∧
    (sampleWorldPointer.ctl.orbitContainer = true →
      ((updateRotation sampleWorldPointer).items 1).counterRotation =
        [.num (JSNum.fin (-(((3 : ℤ) : ℚ) - 1) * 60)), .lit "deg"]) :=
  counterRotation_angle sampleWorldPointer 1 (by decide) 3 (by decide)

/-! ## The pointer inside the visual region -/

/-- The offset `updateMousePosition` stores for a region of positive size. -/
theorem updateMousePosition_mouse (w : World) (e : MouseEvent) (hv : w.ctl.heroVisual = true)
    (hw : 0 < w.heroRect.width) (hh : 0 < w.heroRect.height) :
    updateMousePosition w e =
      ⟨{ w with ctl := { w.ctl with mouse :=
          ⟨JSNum.fin ((e.clientX - w.heroRect.left - w.heroRect.width / 2) /
              (w.heroRect.width / 2)),
            JSNum.fin ((e.clientY - w.heroRect.top - w.heroRect.height / 2) /
              (w.heroRect.height / 2))⟩ } }, none⟩ := by
  have h2 : (2 : ℚ) ≠ 0 := by norm_num
  have hw2 : w.heroRect.width / 2 ≠ 0 := by
    have : 0 < w.heroRect.width / 2 := by positivity
    exact ne_of_gt this
  have hh2 : w.heroRect.height / 2 ≠ 0 := by
    have : 0 < w.heroRect.height / 2 := by positivity
    exact ne_of_gt this
  simp only [updateMousePosition, hv, if_true, JSNum.ofNat_eq_fin, Nat.cast_ofNat,
    JSNum.fin_div_fin _ _ h2, JSNum.fin_sub_fin, JSNum.fin_div_fin _ _ hw2,
    JSNum.fin_div_fin _ _ hh2]

/-- A normalised offset lies in `[-1, 1]` for a coordinate inside the region. -/
theorem offset_bounds (c lo size : ℚ) (hs : 0 < size) (h1 : lo ≤ c) (h2 : c ≤ lo + size) :
    -1 ≤ (c - lo - size / 2) / (size / 2) ∧ (c - lo - size / 2) / (size / 2) ≤ 1 := by
  have hpos : 0 < size / 2 := by positivity
  constructor
  · rw [le_div_iff₀ hpos]
    linarith
  · rw [div_le_iff₀ hpos]
    linarith

/-- The clamp leaves a halved attraction alone when the offset is in `[-1, 1]`. -/
theorem clamp_inactive (x : ℚ) (h1 : -1 ≤ x) (h2 : x ≤ 1) :
    Max.max (-40) (Min.min 40 (x * 40 * (1 / 2))) = 20 * x := by
  rw [min_eq_right (by linarith), max_eq_right (by linarith)]
  ring

theorem normalisedOffset_eq (c lo size : ℚ) :
    normalisedOffset c lo size = (c - lo - size / 2) / (size / 2) := by
  unfold normalisedOffset
  rw [sub_sub]

theorem normalisedOffset_eq_zero (c lo size : ℚ) (hs : 0 < size) :
    normalisedOffset c lo size = 0 ↔ c = lo + size / 2 := by
  have hpos : size / 2 ≠ 0 := ne_of_gt (by positivity)
  unfold normalisedOffset
  rw [div_eq_zero_iff, sub_eq_zero]
  constructor
  · rintro (h | h)
    · exact h
    · exact absurd h hpos
  · exact Or.inl

/-- Claim C10. For a visual region of positive width and height and a pointer inside
it, `updateMousePosition` completes, touches nothing but `mouse`, and stores in
`mouse.x` and `mouse.y` the normalised offsets of `clientX` and `clientY` from the
centre of the region. Both lie in `[-1, 1]`, and each is zero exactly when the
pointer is at the centre on that axis. The transform `applySmartParallax` then writes
to the icon of every orbit item is the item's counter-rotation followed by the
translation by exactly 20 times the offset on each axis, of magnitude at most 20, so
the clamp at 40 does not alter it. -/
theorem updateMousePosition_inside_region (w : World) (e : MouseEvent)
    (hv : w.ctl.heroVisual = true)
    (hw : 0 < w.heroRect.width) (hh : 0 < w.heroRect.height)
    (hX : w.heroRect.left ≤ e.clientX ∧ e.clientX ≤ w.heroRect.left + w.heroRect.width)
    (hY : w.heroRect.top ≤ e.clientY ∧ e.clientY ≤ w.heroRect.top + w.heroRect.height) :
    (updateMousePosition w e).thrown = none ∧
    (updateMousePosition w e).world.ctl =
      { w.ctl with mouse :=
        ⟨JSNum.fin (normalisedOffset e.clientX w.heroRect.left w.heroRect.width),
          JSNum.fin (normalisedOffset e.clientY w.heroRect.top w.heroRect.height)⟩ } ∧
    (updateMousePosition w e).world.items = w.items ∧
    (updateMousePosition w e).world.circleTransform = w.circleTransform ∧
    (-1 ≤ normalisedOffset e.clientX w.heroRect.left w.heroRect.width ∧
      normalisedOffset e.clientX w.heroRect.left w.heroRect.width ≤ 1) ∧
    (-1 ≤ normalisedOffset e.clientY w.heroRect.top w.heroRect.height ∧
      normalisedOffset e.clientY w.heroRect.top w.heroRect.height ≤ 1) ∧
    (normalisedOffset e.clientX w.heroRect.left w.heroRect.width = 0 ↔
      e.clientX = w.heroRect.left + w.heroRect.width / 2) ∧
    (normalisedOffset e.clientY w.heroRect.top w.heroRect.height = 0 ↔
      e.clientY = w.heroRect.top + w.heroRect.height / 2) ∧
    (∀ i ∈ w.ctl.orbitItems, ∀ icon, (w.items i).icon = some icon →
      ((applySmartParallax (updateMousePosition w e).world).items i).icon.map
          Icon.transform =
        some [.lit "rotate(", .num (-((slotIndex (w.items i) - 1) * 60)),
          .lit "deg) translate(",
          .num (JSNum.fin (20 * normalisedOffset e.clientX w.heroRect.left w.heroRect.width)),
          .lit "px, ",
          .num (JSNum.fin (20 * normalisedOffset e.clientY w.heroRect.top w.heroRect.height)),
          .lit "px)"]) ∧
    |20 * normalisedOffset e.clientX w.heroRect.left w.heroRect.width| ≤ 20 ∧
    |20 * normalisedOffset e.clientY w.heroRect.top w.heroRect.height| ≤ 20 := by
  have hbx := offset_bounds e.clientX w.heroRect.left w.heroRect.width hw hX.1 hX.2
  have hby := offset_bounds e.clientY w.heroRect.top w.heroRect.height hh hY.1 hY.2
  rw [← normalisedOffset_eq] at hbx hby
  obtain ⟨hx1, hx2⟩ := hbx
  obtain ⟨hy1, hy2⟩ := hby
  rw [updateMousePosition_mouse w e hv hw hh, ← normalisedOffset_eq, ← normalisedOffset_eq]
  refine ⟨rfl, rfl, rfl, rfl, ⟨hx1, hx2⟩, ⟨hy1, hy2⟩,
    normalisedOffset_eq_zero _ _ _ hw, normalisedOffset_eq_zero _ _ _ hh, ?_, ?_, ?_⟩
  · intro i hi icon hicon
    dsimp only
    rw [applySmartParallax_items, forEachItem_apply _ (parallaxItem_idem _), if_pos hi]
    simp only [parallaxItem, slotIndex, hicon, maxDistance, JSNum.ofNat_eq_fin,
      JSNum.fin_mul_fin, JSNum.neg_fin, JSNum.min_fin_fin, JSNum.max_fin_fin, Nat.cast_ofNat,
      Option.map_some', clamp_inactive _ hx1 hx2, clamp_inactive _ hy1 hy2]
  · rw [abs_le]
    constructor <;> linarith
  · rw [abs_le]
    constructor <;> linarith

/-- Witness for C10: on the initialised sample page (region 400 by 300 at (100, 50))
the pointer at (400, 50) is inside the region, half way to the right edge and on
the top edge. -/
theorem updateMousePosition_inside_region_witness :
    (updateMousePosition sampleWorld ⟨400, 50⟩).thrown = none ∧
    (updateMousePosition sampleWorld ⟨400, 50⟩).world.ctl =
      { sampleWorld.ctl with mouse :=
        ⟨JSNum.fin (normalisedOffset 400 100 400), JSNum.fin (normalisedOffset 50 50 300)⟩ } ∧
    (updateMousePosition sampleWorld ⟨400, 50⟩).world.items = sampleWorld.items ∧
    (updateMousePosition sampleWorld ⟨400, 50⟩).world.circleTransform =
      sampleWorld.circleTransform ∧
    (-1 ≤ normalisedOffset 400 100 400 ∧ normalisedOffset 400 100 400 ≤ 1) ∧
    (-1 ≤ normalisedOffset 50 50 300 ∧ normalisedOffset 50 50 300 ≤ 1) ∧
    (normalisedOffset 400 100 400 = 0 ↔ (400 : ℚ) = 100 + 400 / 2) ∧
    (normalisedOffset 50 50 300 = 0 ↔ (50 : ℚ) = 50 + 300 / 2) ∧
    (∀ i ∈ sampleWorld.ctl.orbitItems, ∀ icon, (sampleWorld.items i).icon = some icon →
      ((applySmartParallax (updateMousePosition sampleWorld ⟨400, 50⟩).world).items i).icon.map
          Icon.transform =
        some [.lit "rotate(", .num (-((slotIndex (sampleWorld.items i) - 1) * 60)),
          .lit "deg) translate(", .num (JSNum.fin (20 * normalisedOffset 400 100 400)),
          .lit "px, ", .num (JSNum.fin (20 * normalisedOffset 50 50 300)), .lit "px)"]) ∧
    |20 * normalisedOffset 400 100 400| ≤ 20 ∧ |20 * normalisedOffset 50 50 300| ≤ 20 :=
  updateMousePosition_inside_region sampleWorld ⟨400, 50⟩ rfl
    (by show (0 : ℚ) < 400; norm_num) (by show (0 : ℚ) < 300; norm_num)
    (by show (100 : ℚ) ≤ 400 ∧ (400 : ℚ) ≤ 100 + 400; norm_num)
    (by show (50 : ℚ) ≤ 50 ∧ (50 : ℚ) ≤ 50 + 300; norm_num)

/-- The offsets of the witness: the pointer at (400, 50) is at `(1/2, -1)`. -/
theorem normalisedOffset_sample :
    normalisedOffset 400 100 400 = 1 / 2 ∧ normalisedOffset 50 50 300 = -1 := by
  unfold normalisedOffset
  constructor <;> norm_num

/-! ## Colour conversion -/

theorem isHexDigit_bounds (c : Nat) (h : isHexDigit c = true) :
    (48 ≤ c ∧ c ≤ 57) ∨ (65 ≤ c ∧ c ≤ 70) ∨ (97 ≤ c ∧ c ≤ 102) := by
  simpa [isHexDigit, or_assoc] using h

theorem isWhiteSpace_of_isHexDigit (c : Nat) (h : isHexDigit c = true) :
    isWhiteSpace c = false := by
  have hb := isHexDigit_bounds c h
  simp only [isWhiteSpace, Bool.or_eq_false_iff, Bool.and_eq_false_imp, decide_eq_false_iff_not,
    decide_eq_true_eq]
  omega

theorem digitValue_of_isHexDigit (c : Nat) (h : isHexDigit c = true) :
    digitValue c = some (hexValue c) ∧ hexValue c < 16 := by
  have hb := isHexDigit_bounds c h
  unfold digitValue hexValue
  rcases hb with hb | hb | hb
  · rw [if_pos hb, if_pos hb.2]
    exact ⟨rfl, by omega⟩
  · rw [if_neg (by omega), if_neg (by omega), if_pos (by omega), if_neg (by omega),
      if_pos hb.2]
    exact ⟨rfl, by omega⟩
  · rw [if_neg (by omega), if_pos (by omega), if_neg (by omega), if_neg (by omega)]
    exact ⟨rfl, by omega⟩

/-- In radix 16 a pair of hexadecimal digits reads as the byte it denotes. -/
theorem parseInt_hex_pair (a b : Nat) (ha : isHexDigit a = true) (hb : isHexDigit b = true) :
    parseInt [a, b] 16 = JSNum.fin ((16 * hexValue a + hexValue b : ℕ) : ℚ) := by
  have hwa := isWhiteSpace_of_isHexDigit a ha
  obtain ⟨hda, hla⟩ := digitValue_of_isHexDigit a ha
  obtain ⟨hdb, hlb⟩ := digitValue_of_isHexDigit b hb
  have hba := isHexDigit_bounds a ha
  have hbb := isHexDigit_bounds b hb
  have h43 : a ≠ 43 := by omega
  have h45 : a ≠ 45 := by omega
  have h120 : b ≠ 120 := by omega
  have h88 : b ≠ 88 := by omega
  have hmark : hasHexMark [a, b] = false := by
    by_cases h48 : a = 48
    · subst h48
      simp [hasHexMark, h120, h88]
    · simp [hasHexMark, h48]
  simp [parseInt, List.dropWhile, hwa, h43, h45, mathInt, hmark, radixDigits, hda, hla, hdb,
    hlb]
  ring

theorem wellFormedHex_shape (s : JSString) (h : wellFormedHex s = true) :
    ∃ d1 d2 d3 d4 d5 d6, s = [35, d1, d2, d3, d4, d5, d6] ∧
      isHexDigit d1 = true ∧ isHexDigit d2 = true ∧ isHexDigit d3 = true ∧
      isHexDigit d4 = true ∧ isHexDigit d5 = true ∧ isHexDigit d6 = true := by
  rcases s with _ | ⟨c0, _ | ⟨d1, _ | ⟨d2, _ | ⟨d3, _ | ⟨d4, _ | ⟨d5, _ | ⟨d6, _ | ⟨d7, rest⟩⟩⟩⟩⟩⟩⟩⟩ <;>
    simp [wellFormedHex] at h
  obtain ⟨h0, h1, h2, h3, h4, h5, h6⟩ := h
  exact ⟨d1, d2, d3, d4, d5, d6, by rw [h0], h1, h2, h3, h4, h5, h6⟩

theorem hexValue_lt (c : Nat) (h : isHexDigit c = true) : hexValue c < 16 :=
  (digitValue_of_isHexDigit c h).2

/-- Claim C4. For a well-formed colour string `#RRGGBB` and any opacity,
`hexToRgba` returns `rgba(r, g, b, alpha)` with `r`, `g` and `b` the integer values
of the byte pairs `RR`, `GG` and `BB`, each between 0 and 255, and `alpha` the
opacity given. -/
theorem hexToRgba_wellFormed (s : JSString) (alpha : JSNum) (h : wellFormedHex s = true) :
    hexToRgba (some s) alpha =
      .ok [.lit "rgba(", .num (JSNum.fin (byteAt s 1 : ℕ)), .lit ", ",
        .num (JSNum.fin (byteAt s 3 : ℕ)), .lit ", ", .num (JSNum.fin (byteAt s 5 : ℕ)),
        .lit ", ", .num alpha, .lit ")"] ∧
    byteAt s 1 ≤ 255 ∧ byteAt s 3 ≤ 255 ∧ byteAt s 5 ≤ 255 := by
  obtain ⟨d1, d2, d3, d4, d5, d6, rfl, h1, h2, h3, h4, h5, h6⟩ := wellFormedHex_shape s h
  have l1 := hexValue_lt d1 h1
  have l2 := hexValue_lt d2 h2
  have l3 := hexValue_lt d3 h3
  have l4 := hexValue_lt d4 h4
  have l5 := hexValue_lt d5 h5
  have l6 := hexValue_lt d6 h6
  refine ⟨?_, ?_, ?_, ?_⟩
  · have e1 : slice [35, d1, d2, d3, d4, d5, d6] 1 3 = [d1, d2] := rfl
    have e2 : slice [35, d1, d2, d3, d4, d5, d6] 3 5 = [d3, d4] := rfl
    have e3 : slice [35, d1, d2, d3, d4, d5, d6] 5 7 = [d5, d6] := rfl
    simp only [hexToRgba, e1, e2, e3, parseInt_hex_pair d1 d2 h1 h2,
      parseInt_hex_pair d3 d4 h3 h4, parseInt_hex_pair d5 d6 h5 h6]
    rfl
  · show 16 * hexValue d1 + hexValue d2 ≤ 255
    omega
  · show 16 * hexValue d3 + hexValue d4 ≤ 255
    omega
  · show 16 * hexValue d5 + hexValue d6 ≤ 255
    omega

/-- Witness for C4: the two colours the specification names, `#FF0000` at opacity
0.5 and `#000000` at opacity 1. -/
theorem hexToRgba_wellFormed_witness :
    hexToRgba (some (codeUnits "#FF0000")) (JSNum.fin (1 / 2)) =
      .ok [.lit "rgba(", .num 255, .lit ", ", .num 0, .lit ", ", .num 0, .lit ", ",
        .num (JSNum.fin (1 / 2)), .lit ")"] ∧
    hexToRgba (some (codeUnits "#000000")) 1 =
      .ok [.lit "rgba(", .num 0, .lit ", ", .num 0, .lit ", ", .num 0, .lit ", ", .num 1,
        .lit ")"] :=
  ⟨(hexToRgba_wellFormed (codeUnits "#FF0000") (JSNum.fin (1 / 2)) (by decide)).1,
    (hexToRgba_wellFormed (codeUnits "#000000") 1 (by decide)).1⟩

/-- Counterexample to C5: three malformed colour strings, one without the hash and
too short, one too long, one with letters that are no hexadecimal digits, for which
`hexToRgba` returns three numeric components. -/
theorem hexToRgba_malformed_numeric :
    (wellFormedHex (codeUnits "FF0000") = false ∧
      hexToRgba (some (codeUnits "FF0000")) 1 =
        .ok [.lit "rgba(", .num 240, .lit ", ", .num 0, .lit ", ", .num 0, .lit ", ", .num 1,
          .lit ")"]) ∧
    (wellFormedHex (codeUnits "#FF00001") = false ∧
      hexToRgba (some (codeUnits "#FF00001")) 1 =
        .ok [.lit "rgba(", .num 255, .lit ", ", .num 0, .lit ", ", .num 0, .lit ", ", .num 1,
          .lit ")"]) ∧
    (wellFormedHex (codeUnits "#1G2H3Z") = false ∧
      hexToRgba (some (codeUnits "#1G2H3Z")) 1 =
        .ok [.lit "rgba(", .num 1, .lit ", ", .num 2, .lit ", ", .num 3, .lit ", ", .num 1,
          .lit ")"]) := by
  decide

theorem radixDigits_of_not_isHexDigit (c : Nat) (t : JSString) (h : isHexDigit c = false) :
    radixDigits 16 (c :: t) = [] := by
  have hb : ¬((48 ≤ c ∧ c ≤ 57) ∨ (65 ≤ c ∧ c ≤ 70) ∨ (97 ≤ c ∧ c ≤ 102)) := by
    intro hc
    have : isHexDigit c = true := by simpa [isHexDigit, or_assoc] using hc
    rw [h] at this
    exact Bool.false_ne_true this
  unfold radixDigits digitValue
  split_ifs with h1 h2 h3 <;> simp <;> omega

/-- Where no number can start, `parseInt` of the two-unit slice is `NaN`. -/
theorem parseInt_slice_nan (s : JSString) (k : Nat) (h : noNumberAt s k = true) :
    parseInt (slice s k (k + 2)) 16 = JSNum.nan := by
  unfold noNumberAt at h
  unfold slice
  rw [Nat.add_sub_cancel_left]
  cases hd : s.drop k with
  | nil => decide
  | cons c rest =>
    rw [hd] at h
    simp only [Bool.and_eq_true, Bool.not_eq_true', bne_iff_ne, ne_eq] at h
    obtain ⟨⟨⟨hhex, hws⟩, h43⟩, h45⟩ := h
    have h48 : c ≠ 48 := by
      intro hc
      rw [hc] at hhex
      exact absurd hhex (by decide)
    have hmark : hasHexMark (c :: rest.take 1) = false := by
      unfold hasHexMark
      split
      · rename_i heq
        simp only [List.cons.injEq] at heq
        exact absurd heq.1.symm (fun e => h48 e.symm)
      · rfl
    have hrd := radixDigits_of_not_isHexDigit c (rest.take 1) hhex
    simp [parseInt, List.dropWhile, hws, h43, h45, hmark, hrd]

/-- Claim C5, amended. `hexToRgba` validates nothing: for every string it returns
`rgba(r, g, b, alpha)`; and whenever position 1, 3 or 5 of the string is past its
end or holds a code unit that is not a hexadecimal digit, white space, `+` or `-`,
at least one of `r`, `g`, `b` is `NaN`. -/
theorem hexToRgba_nan_component (s : JSString) (alpha : JSNum)
    (h : noNumberAt s 1 = true ∨ noNumberAt s 3 = true ∨ noNumberAt s 5 = true) :
    ∃ r g b, hexToRgba (some s) alpha =
        .ok [.lit "rgba(", .num r, .lit ", ", .num g, .lit ", ", .num b, .lit ", ",
          .num alpha, .lit ")"] ∧
      (r = JSNum.nan ∨ g = JSNum.nan ∨ b = JSNum.nan) := by
  refine ⟨parseInt (slice s 1 3) 16, parseInt (slice s 3 5) 16, parseInt (slice s 5 7) 16,
    rfl, ?_⟩
  rcases h with h | h | h
  · exact Or.inl (parseInt_slice_nan s 1 h)
  · exact Or.inr (Or.inl (parseInt_slice_nan s 3 h))
  · exact Or.inr (Or.inr (parseInt_slice_nan s 5 h))

/-- Witness for C5 as amended: the five-unit string `#FF00` ends before position 5,
and its blue component is `NaN`. -/
theorem hexToRgba_nan_component_witness :
    ∃ r g b, hexToRgba (some (codeUnits "#FF00")) 1 =
        .ok [.lit "rgba(", .num r, .lit ", ", .num g, .lit ", ", .num b, .lit ", ",
          .num 1, .lit ")"] ∧
      (r = JSNum.nan ∨ g = JSNum.nan ∨ b = JSNum.nan) :=
  hexToRgba_nan_component (codeUnits "#FF00") 1 (Or.inr (Or.inr (by decide)))

/-! ## Initialisation without the visual region -/

/-- Claim C6. When the document has no element `#heroVisual`, `init` returns without
an error, registers no listener, requests no animation frame, and leaves
`orbitItems`, `orbitContainer`, `centerCircle`, `mouse` and `isHovering`, as well as
every element of the page, as they were. -/
theorem init_without_heroVisual (w : World) (h : w.page.heroVisual = false) :
    (init w).thrown = none ∧
    (init w).world.listeners = w.listeners ∧
    (init w).world.frameRequests = w.frameRequests ∧
    (init w).world.ctl.orbitItems = w.ctl.orbitItems ∧
    (init w).world.ctl.orbitContainer = w.ctl.orbitContainer ∧
    (init w).world.ctl.centerCircle = w.ctl.centerCircle ∧
    (init w).world.ctl.mouse = w.ctl.mouse ∧
    (init w).world.ctl.isHovering = w.ctl.isHovering ∧
    (init w).world.items = w.items ∧
    (init w).world.containerPlayState = w.containerPlayState ∧
    (init w).world.circleTransform = w.circleTransform ∧
    (init w).world.cardPlayState = w.cardPlayState ∧
    (init w).world.timeouts = w.timeouts := by
  simp [init, h]

/-- Witness for C6: the sample page without `#heroVisual`. -/
theorem init_without_heroVisual_witness :
    (init samplePageNoVisual).thrown = none ∧
    (init samplePageNoVisual).world.listeners = samplePageNoVisual.listeners ∧
    (init samplePageNoVisual).world.frameRequests = samplePageNoVisual.frameRequests ∧
    (init samplePageNoVisual).world.ctl.orbitItems = samplePageNoVisual.ctl.orbitItems ∧
    (init samplePageNoVisual).world.ctl.orbitContainer = samplePageNoVisual.ctl.orbitContainer ∧
    (init samplePageNoVisual).world.ctl.centerCircle = samplePageNoVisual.ctl.centerCircle ∧
    (init samplePageNoVisual).world.ctl.mouse = samplePageNoVisual.ctl.mouse ∧
    (init samplePageNoVisual).world.ctl.isHovering = samplePageNoVisual.ctl.isHovering ∧
    (init samplePageNoVisual).world.items = samplePageNoVisual.items ∧
    (init samplePageNoVisual).world.containerPlayState = samplePageNoVisual.containerPlayState ∧
    (init samplePageNoVisual).world.circleTransform = samplePageNoVisual.circleTransform ∧
    (init samplePageNoVisual).world.cardPlayState = samplePageNoVisual.cardPlayState ∧
    (init samplePageNoVisual).world.timeouts = samplePageNoVisual.timeouts :=
  init_without_heroVisual samplePageNoVisual rfl

/-- With `#heroVisual` present, `init` on the sample page registers the two listeners
of the region, three per orbit item and two per floating card, and starts the loop. -/
theorem init_samplePage :
    sampleWorld.listeners.length = 15 ∧ sampleWorld.frameRequests = 1 ∧
    (init samplePage).thrown = none := by
  decide

/-! ## The per-frame loop -/

theorem updateRotation_ctl (w : World) : (updateRotation w).ctl = w.ctl := by
  unfold updateRotation
  by_cases h : w.ctl.orbitContainer <;> simp [h]

theorem updateRotation_frameRequests (w : World) :
    (updateRotation w).frameRequests =
      w.frameRequests + (if w.ctl.orbitContainer then 1 else 0) := by
  unfold updateRotation
  by_cases h : w.ctl.orbitContainer <;> simp [h]

theorem iterate_updateRotation_ctl (n : Nat) (w : World) :
    (Nat.iterate updateRotation n w).ctl = w.ctl := by
  induction n generalizing w with
  | zero => rfl
  | succ k ih => rw [Function.iterate_succ_apply, ih, updateRotation_ctl]

theorem iterate_updateRotation_frameRequests (n : Nat) (w : World) :
    (Nat.iterate updateRotation n w).frameRequests =
      w.frameRequests + (if w.ctl.orbitContainer then n else 0) := by
  induction n generalizing w with
  | zero => simp
  | succ k ih =>
    rw [Function.iterate_succ_apply, ih, updateRotation_ctl, updateRotation_frameRequests]
    by_cases h : w.ctl.orbitContainer <;> simp [h]
    omega

/-- Counterexample to C9: on the sample page `init` leaves one call of
`updateRotation` waiting; once `destroy` has run, that call schedules nothing, and
after the next animation frame no call is waiting any more. -/
theorem frame_loop_stops_after_destroy :
    sampleWorld.frameRequests = 1 ∧
    (updateRotation (destroy sampleWorld)).frameRequests = (destroy sampleWorld).frameRequests ∧
    (animationFrame (destroy sampleWorld)).frameRequests = 0 := by
  decide

/-- Claim C9, amended. An invocation of `updateRotation` schedules another one
exactly when the controller holds the orbit container at that moment: as long as it
does, an animation frame leaves as many calls waiting as it found; once `destroy`
has dropped the reference, an invocation schedules nothing and an animation frame
leaves no call waiting. -/
theorem updateRotation_reschedules (w : World) :
    (updateRotation w).frameRequests =
      w.frameRequests + (if w.ctl.orbitContainer then 1 else 0) ∧
    (animationFrame w).frameRequests = (if w.ctl.orbitContainer then w.frameRequests else 0) ∧
    (updateRotation (destroy w)).frameRequests = (destroy w).frameRequests ∧
    (animationFrame (destroy w)).frameRequests = 0 := by
  have hframe : ∀ v : World, (animationFrame v).frameRequests =
      (if v.ctl.orbitContainer then v.frameRequests else 0) := by
    intro v
    unfold animationFrame
    rw [iterate_updateRotation_frameRequests]
    simp
  refine ⟨updateRotation_frameRequests w, hframe w, ?_, ?_⟩
  · rw [updateRotation_frameRequests]
    simp [destroy]
  · rw [hframe]
    simp [destroy]

/-! ## Hover handlers -/

/-- For an orbit item that has an icon and a colour attribute, the `mouseenter`
listener completes, sets `isHovering` and pauses the orbit container the controller
holds. -/
theorem itemMouseEnter_pauses (w : World) (i : Nat) (color : JSString) (icon : Icon)
    (hicon : (w.items i).icon = some icon) :
    (itemMouseEnter i (some color) w).thrown = none ∧
    (itemMouseEnter i (some color) w).world.ctl.isHovering = true ∧
    (w.ctl.orbitContainer = true →
      (itemMouseEnter i (some color) w).world.containerPlayState = [.lit "paused"]) ∧
    (w.ctl.orbitContainer = false →
      (itemMouseEnter i (some color) w).world.containerPlayState = w.containerPlayState) := by
  by_cases hc : w.ctl.orbitContainer <;>
    simp [itemMouseEnter, hicon, hexToRgba, writeIcon, hc]

/-- For an orbit item that has an icon, the `mouseleave` listener completes, clears
`isHovering` and resumes the orbit container the controller holds. -/
theorem itemMouseLeave_resumes (w : World) (i : Nat) (icon : Icon)
    (hicon : (w.items i).icon = some icon) :
    (itemMouseLeave i w).thrown = none ∧
    (itemMouseLeave i w).world.ctl.isHovering = false ∧
    (w.ctl.orbitContainer = true →
      (itemMouseLeave i w).world.containerPlayState = [.lit "running"]) ∧
    (w.ctl.orbitContainer = false →
      (itemMouseLeave i w).world.containerPlayState = w.containerPlayState) := by
  by_cases hc : w.ctl.orbitContainer <;>
    simp [itemMouseLeave, hicon, writeIcon, hc]

/-- The hover listeners of a floating card set that card's own play state and change
nothing else: not the orbit container, not another card, not the controller. -/
theorem card_hover (w : World) (c : Nat) :
    (cardMouseEnter c w).cardPlayState c = [.lit "paused"] ∧
    (cardMouseLeave c w).cardPlayState c = [.lit "running"] ∧
    (∀ d, d ≠ c → (cardMouseEnter c w).cardPlayState d = w.cardPlayState d ∧
      (cardMouseLeave c w).cardPlayState d = w.cardPlayState d) ∧
    (cardMouseEnter c w).containerPlayState = w.containerPlayState ∧
    (cardMouseLeave c w).containerPlayState = w.containerPlayState ∧
    (cardMouseEnter c w).ctl = w.ctl ∧ (cardMouseLeave c w).ctl = w.ctl := by
  refine ⟨by simp [cardMouseEnter], by simp [cardMouseLeave], ?_, rfl, rfl, rfl, rfl⟩
  intro d hd
  simp [cardMouseEnter, cardMouseLeave, Function.update_noteq hd]

/-- Claim C7, at the input where the code departs from it. On the initialised
sample page orbit item `2` has no icon. Its registered `mouseenter` listener stops
with a `TypeError` after setting `isHovering`, and the orbit container's play state
stays `running` instead of becoming `paused`; after item `0` has paused the
container, the `mouseleave` listener of item `2` stops the same way and the play
state stays `paused` instead of becoming `running`. -/
theorem item_hover_iconless_leaves_play_state :
    Listener.mk (.orbitItem 2) "mouseenter" (.itemMouseEnter 2 (some (codeUnits "#0000FF")))
      ∈ sampleWorld.listeners ∧
    Listener.mk (.orbitItem 2) "mouseleave" (.itemMouseLeave 2) ∈ sampleWorld.listeners ∧
    sampleWorld.containerPlayState = [.lit "running"] ∧
    (itemMouseEnter 2 (some (codeUnits "#0000FF")) sampleWorld).thrown = some .typeError ∧
    (itemMouseEnter 2 (some (codeUnits "#0000FF")) sampleWorld).world.ctl.isHovering = true ∧
    (itemMouseEnter 2 (some (codeUnits "#0000FF")) sampleWorld).world.containerPlayState =
      [.lit "running"] ∧
    (itemMouseEnter 0 (some (codeUnits "#FF0000")) sampleWorld).world.containerPlayState =
      [.lit "paused"] ∧
    (itemMouseLeave 2
      (itemMouseEnter 0 (some (codeUnits "#FF0000")) sampleWorld).world).thrown =
        some .typeError ∧
    (itemMouseLeave 2
      (itemMouseEnter 0 (some (codeUnits "#FF0000")) sampleWorld).world).world.containerPlayState =
        [.lit "paused"] := by
  decide

/-! ## Handlers and absent elements -/

/-- The listeners of the visual region complete while the controller holds the
region, whether or not an orbit item has an icon and whether or not the centre
circle and the orbit container exist. -/
theorem visual_listeners_complete (w : World) (e : MouseEvent)
    (hv : w.ctl.heroVisual = true) :
    (runHandler .visualMouseMove e w).thrown = none ∧
    (runHandler .visualMouseLeave e w).thrown = none := by
  simp [runHandler, visualMouseMove, updateMousePosition, hv, Outcome.andThen]

/-- With the orbit container and the centre circle missing, the hover and click
listeners of an orbit item that has an icon and a colour attribute complete. -/
theorem item_listeners_complete (w : World) (e : MouseEvent) (i : Nat) (color : JSString)
    (icon : Icon) (hicon : (w.items i).icon = some icon) :
    (runHandler (.itemMouseEnter i (some color)) e w).thrown = none ∧
    (runHandler (.itemMouseLeave i) e w).thrown = none ∧
    (runHandler (.itemClick i (some color)) e w).thrown = none := by
  refine ⟨(itemMouseEnter_pauses w i color icon hicon).1,
    (itemMouseLeave_resumes w i icon hicon).1, ?_⟩
  simp [runHandler, itemClick, createRipple, hexToRgba, hicon]

/-- Claim C8, at the input where the code departs from it. On the initialised
sample page orbit item `2` has no icon: its registered `mouseenter`, `mouseleave` and
`click` listeners each stop with a `TypeError`, while the `mousemove` and
`mouseleave` listeners of the visual region complete. -/
theorem item_listeners_iconless_throw :
    Listener.mk (.orbitItem 2) "mouseenter" (.itemMouseEnter 2 (some (codeUnits "#0000FF")))
      ∈ sampleWorld.listeners ∧
    Listener.mk (.orbitItem 2) "mouseleave" (.itemMouseLeave 2) ∈ sampleWorld.listeners ∧
    Listener.mk (.orbitItem 2) "click" (.itemClick 2 (some (codeUnits "#0000FF")))
      ∈ sampleWorld.listeners ∧
    (sampleWorld.items 2).icon = none ∧
    (runHandler (.itemMouseEnter 2 (some (codeUnits "#0000FF"))) ⟨300, 200⟩ sampleWorld).thrown =
      some .typeError ∧
    (runHandler (.itemMouseLeave 2) ⟨300, 200⟩ sampleWorld).thrown = some .typeError ∧
    (runHandler (.itemClick 2 (some (codeUnits "#0000FF"))) ⟨300, 200⟩ sampleWorld).thrown =
      some .typeError ∧
    (runHandler .visualMouseMove ⟨300, 200⟩ sampleWorld).thrown = none ∧
    (runHandler .visualMouseLeave ⟨300, 200⟩ sampleWorld).thrown = none := by
  decide

end HeroInteractions
